import Mathlib

/-! # Verification of the refresh-coordination core of `src/app.py`

Shallow embedding of the server-monitoring dashboard's refresh subsystem:
the durable timestamp store (`get_global_last_refresh_time` /
`set_global_last_refresh_time`, app.py lines 22-39), the exclusive
execution lock (`acquire_execution_lock` / `release_execution_lock`,
lines 42-65), the cooldown evaluation (lines 408-426), the collection
result parser (`parse_ansible_output`, lines 179-206) and the two refresh
button handlers (lines 459-497 and 500-541).

Modelling conventions:
* Python floats (`time.time()` values, cooldown arithmetic) are modelled
  as rationals `ℚ`; Python `int(x)` is truncation toward zero (`pyInt`).
* The on-disk state mutated by the handlers (the advisory lock, the two
  timestamp files, `info/health_status.json`) is an explicit `World`
  record threaded through the embedded functions.
* A timestamp file's content is abstracted by `FileContent`: `missing`
  (`os.path.exists` false), `unreadable` (open/read raises `IOError`),
  `nonNumeric` (`float(...)` raises `ValueError`), or `numeric q`.
* The regular expression
  `(.*) : ok=(\d+) +changed=(\d+) +unreachable=(\d+) +failed=(\d+)`
  applied with `re.search` to a single line is implemented character by
  character: a match anchored at position j exists iff the tail pattern
  (`parseTail`) matches at j, and the greedy `(.*)` picks the largest
  such j (`searchAux` prefers the deepest match).  `str.splitlines()` is
  modelled as splitting on `'\n'` and `str.strip()` as trimming
  whitespace characters; other (exotic) Python line terminators and
  whitespace code points are not modelled.
* Each handler run is parameterised by the values the outside world
  supplies during it: the two `time.time()` readings, the result of
  `get_ansible_playbook_path()` and the outcome of `subprocess.run`
  (success, `CalledProcessError` with captured output, or any other
  exception).  The handler returns the final `World`, the ordered list
  of observable `Event`s it performed, and how the attempt ended.
  The `try`/`finally` block is embedded by composing the protected body
  (a total function on outcomes, including the exception outcome) with
  an unconditional release.
-/

namespace App

/-- Category string for the lightweight GPU refresh. -/
def catGpu : String := "gpu"

/-- Category string for the full-inventory refresh. -/
def catInfo : String := "info"

/-- `GPU_REFRESH_COOLDOWN_SECONDS = 5 * 60` (app.py line 18). -/
def GPU_REFRESH_COOLDOWN_SECONDS : ℚ := 5 * 60

/-- `INFO_REFRESH_COOLDOWN_SECONDS = 24 * 60 * 60` (app.py line 19). -/
def INFO_REFRESH_COOLDOWN_SECONDS : ℚ := 24 * 60 * 60

/-- Content of a category's timestamp file, abstracting how
`get_global_last_refresh_time` can fail to obtain a number. -/
inductive FileContent where
  | missing
  | unreadable
  | nonNumeric
  | numeric (q : ℚ)
deriving DecidableEq

/-- The structured result of `parse_ansible_output`: three lists of
host-identifier strings, in append order. -/
structure HealthSummary where
  unreachable : List String
  failed : List String
  success : List String
deriving DecidableEq

/-- The durable state shared by all dashboard processes: the advisory
lock on `info/execution.lock`, the two timestamp files and
`info/health_status.json`. -/
structure World where
  lockHeld : Bool
  gpuTs : FileContent
  infoTs : FileContent
  healthFile : Option HealthSummary
deriving DecidableEq

/-- `get_global_last_refresh_time(refresh_type)` (app.py lines 22-31):
pick the gpu file iff `refresh_type == "gpu"`, else the info file;
missing, unreadable or non-numeric content reads as `0.0`. -/
def get_global_last_refresh_time (w : World) (refresh_type : String) : ℚ :=
  let content := if refresh_type = catGpu then w.gpuTs else w.infoTs
  match content with
  | .missing => 0
  | .unreadable => 0
  | .nonNumeric => 0
  | .numeric q => q

/-- `set_global_last_refresh_time(timestamp, refresh_type)` (app.py
lines 34-39): writes the numeric timestamp to the selected file. -/
def set_global_last_refresh_time (w : World) (timestamp : ℚ) (refresh_type : String) : World :=
  if refresh_type = catGpu then { w with gpuTs := .numeric timestamp }
  else { w with infoTs := .numeric timestamp }

/-- `acquire_execution_lock()` (app.py lines 42-55): non-blocking
`flock(LOCK_EX | LOCK_NB)`.  If the advisory lock is already held by
anyone, the call raises and `(None, False)` is returned with the lock
state unchanged; otherwise the lock becomes held and
`(lock_file, True)` is returned.  The open file handle is modelled by
`Option Unit`. -/
def acquire_execution_lock (w : World) : World × Option Unit × Bool :=
  if w.lockHeld then (w, none, false)
  else ({ w with lockHeld := true }, some (), true)

/-- `release_execution_lock(lock_file)` (app.py lines 58-65): a `None`
token is ignored; a real token unlocks. -/
def release_execution_lock (w : World) (lock_file : Option Unit) : World :=
  match lock_file with
  | none => w
  | some _ => { w with lockHeld := false }

/-- Python `int()` applied to a rational: truncation toward zero. -/
def pyInt (q : ℚ) : ℤ :=
  if 0 ≤ q then ⌊q⌋ else ⌈q⌉

/-- The cooldown evaluation performed by the dashboard for each category
(app.py lines 408-416 with the gpu constant, lines 418-426 with the info
constant): `can_refresh` starts true and `remaining_seconds` at zero; if
the last refresh time is positive and the elapsed time is below the
cooldown, refreshing is blocked and
`remaining = int(cooldown - elapsed)`. -/
def cooldown_check (last_refresh_time cooldown now : ℚ) : Bool × ℤ :=
  if last_refresh_time > 0 then
    let elapsed := now - last_refresh_time
    if elapsed < cooldown then (false, pyInt (cooldown - elapsed))
    else (true, 0)
  else (true, 0)

/-! ## Collection result parser (`parse_ansible_output`, lines 179-206) -/

/-- One line matched by the per-host summary regular expression:
`host` is the raw text captured by `(.*)` (before `.strip()`), the four
numbers are the captured counts. -/
structure LineMatch where
  host : String
  okCount : Nat
  changedCount : Nat
  unreachable : Nat
  failed : Nat
deriving DecidableEq

/-- Value of a nonempty digit string, as Python `int()` computes it. -/
def digitsToNat (ds : List Char) : Nat :=
  ds.foldl (fun n c => 10 * n + (c.toNat - 48)) 0

/-- Consume a literal prefix, returning the remainder. -/
def dropLiteral : List Char → List Char → Option (List Char)
  | [], cs => some cs
  | _ :: _, [] => none
  | l :: ls, c :: cs => if c = l then dropLiteral ls cs else none

/-- Literal `" : ok="` of the regular expression. -/
def litOk : List Char := (" : ok=").data

/-- Literal `"changed="` of the regular expression. -/
def litChanged : List Char := ("changed=").data

/-- Literal `"unreachable="` of the regular expression. -/
def litUnreachable : List Char := ("unreachable=").data

/-- Literal `"failed="` of the regular expression. -/
def litFailed : List Char := ("failed=").data

/-- Match `label`, then `(\d+)` (greedy, at least one digit), then ` +`
(at least one space), returning the count and the rest.  Greedy `\d+`
followed by ` +` followed by a literal is exactly: maximal digit run,
then maximal space run, both nonempty, then the next literal. -/
def parseCountAndGap (label : List Char) (cs : List Char) : Option (Nat × List Char) :=
  match dropLiteral label cs with
  | none => none
  | some cs₁ =>
    let d := cs₁.takeWhile Char.isDigit
    let cs₂ := cs₁.dropWhile Char.isDigit
    if d.isEmpty then none
    else
      let s := cs₂.takeWhile (fun c => c = ' ')
      let cs₃ := cs₂.dropWhile (fun c => c = ' ')
      if s.isEmpty then none else some (digitsToNat d, cs₃)

/-- Match `label` then a final `(\d+)`; the rest of the line after the
digits is unconstrained (`re.search` does not anchor the end). -/
def parseCountFinal (label : List Char) (cs : List Char) : Option Nat :=
  match dropLiteral label cs with
  | none => none
  | some cs₁ =>
    let d := cs₁.takeWhile Char.isDigit
    if d.isEmpty then none else some (digitsToNat d)

/-- The tail of the regular expression from the position where the
greedy `(.*)` group ends: `" : ok=" D S "changed=" D S "unreachable=" D S
"failed=" D ...`.  Returns `(ok, changed, unreachable, failed)`. -/
def parseTail (cs : List Char) : Option (Nat × Nat × Nat × Nat) :=
  match parseCountAndGap litOk cs with
  | none => none
  | some (okN, cs₁) =>
    match parseCountAndGap litChanged cs₁ with
    | none => none
    | some (chN, cs₂) =>
      match parseCountAndGap litUnreachable cs₂ with
      | none => none
      | some (unN, cs₃) =>
        match parseCountFinal litFailed cs₃ with
        | none => none
        | some faN => some (okN, chN, unN, faN)

/-- Scan a line for the rightmost position where `parseTail` matches
(the greedy `(.*)` takes the longest possible prefix); `pre` holds the
characters already passed, in reverse. -/
def searchAux : List Char → List Char → Option LineMatch
  | _, [] => none
  | pre, c :: cs =>
    match searchAux (c :: pre) cs with
    | some m => some m
    | none =>
      match parseTail (c :: cs) with
      | some (okN, chN, unN, faN) => some ⟨String.mk pre.reverse, okN, chN, unN, faN⟩
      | none => none

/-- `re.search` of the per-host pattern on one output line. -/
def searchLine (line : List Char) : Option LineMatch :=
  searchAux [] line

/-- Split on `'\n'` (model of `str.splitlines()`). -/
def splitLinesAux : List Char → List Char → List (List Char)
  | acc, [] => [acc.reverse]
  | acc, c :: cs => if c = '\n' then acc.reverse :: splitLinesAux [] cs else splitLinesAux (c :: acc) cs

/-- The list of lines of an output string. -/
def splitLines (s : String) : List (List Char) :=
  splitLinesAux [] s.data

/-- Python `str.strip()`: drop whitespace from both ends. -/
def pyStrip (cs : List Char) : List Char :=
  ((cs.dropWhile Char.isWhitespace).reverse.dropWhile Char.isWhitespace).reverse

/-- `get_hostname_mapping()` (app.py lines 96-121). -/
def get_hostname_mapping : List (String × String) :=
  [("snu185", "147.46.92.185"), ("snu30", "147.46.91.30"),
   ("snu188", "147.46.92.188"), ("snu32", "147.46.91.32"),
   ("snu35", "147.46.91.35"), ("snu20", "147.46.91.20"),
   ("snu36", "147.46.91.36"), ("snu186", "147.46.92.186"),
   ("snu44", "147.46.92.44"), ("snu24", "147.46.91.24"),
   ("snu22", "147.46.91.22"), ("snu55", "147.46.91.55"),
   ("nm87", "147.46.132.87"), ("nm20", "147.47.132.20"),
   ("nm80", "147.46.132.80"), ("info107", "147.47.206.107"),
   ("info100", "147.47.206.100"), ("info103", "147.47.206.103"),
   ("info104", "147.47.206.104"), ("info106", "147.47.206.106"),
   ("info105", "147.47.206.105"), ("snu234", "147.47.190.234"),
   ("snu233", "147.47.190.233")]

/-- Sentinel address for hosts absent from the mapping. -/
def unknownAddr : String := "Unknown"

/-- `host = match.group(1).strip(); host_ip = mapping.get(host, "Unknown");
host_info = f"{host} ({host_ip})"` (app.py lines 190-192). -/
def host_info_of (m : LineMatch) : String :=
  let host := String.mk (pyStrip m.host.data)
  let host_ip := (get_hostname_mapping.lookup host).getD unknownAddr
  host ++ " (" ++ host_ip ++ ")"

/-- The body of the per-line loop of `parse_ansible_output` (app.py
lines 187-200): skip non-matching lines; classify a matching line as
unreachable when `unreachable_count > 0`, else failed when
`failed_count > 0`, else successful. -/
def parseStep (acc : HealthSummary) (line : List Char) : HealthSummary :=
  match searchLine line with
  | none => acc
  | some m =>
    let info := host_info_of m
    if 0 < m.unreachable then { acc with unreachable := acc.unreachable ++ [info] }
    else if 0 < m.failed then { acc with failed := acc.failed ++ [info] }
    else { acc with success := acc.success ++ [info] }

/-- `parse_ansible_output(output)` (app.py lines 179-206). -/
def parse_ansible_output (output : String) : HealthSummary :=
  (splitLines output).foldl parseStep ⟨[], [], []⟩

/-- The matched lines of an output, in order. -/
def matchedLines (output : String) : List LineMatch :=
  (splitLines output).filterMap searchLine

/-- Classification predicate: the line goes to the unreachable list. -/
def unreachableLine (m : LineMatch) : Bool :=
  decide (0 < m.unreachable)

/-- Classification predicate: the line goes to the failed list. -/
def failedLine (m : LineMatch) : Bool :=
  decide (m.unreachable = 0 ∧ 0 < m.failed)

/-- Classification predicate: the line goes to the success list. -/
def healthyLine (m : LineMatch) : Bool :=
  decide (m.unreachable = 0 ∧ m.failed = 0)

/-! ## The refresh button handlers (lines 459-497 and 500-541) -/

/-- How the `subprocess.run(...)` call of a handler turns out: normal
completion with captured stdout, `subprocess.CalledProcessError` with
captured stdout/stderr, or any other exception. -/
inductive ActionOutcome where
  | ok (stdout : String)
  | procError (stdout stderr : String)
  | exn
deriving DecidableEq

/-- How a handler run ends. -/
inductive HandlerResult where
  | lockDenied
  | cooldownRace
  | collectorNotFound
  | completed
  | exnPropagated
deriving DecidableEq

/-- Observable actions of a handler, in program order. -/
inductive Event where
  | readTs (cat : String)
  | writeTs (cat : String) (t : ℚ)
  | runAction (cat : String)
  | writeSummary (hs : HealthSummary)
  | release
deriving DecidableEq

/-- The protected region of the gpu handler (app.py lines 465-495, the
`try`-block body): re-read the gpu timestamp under the lock, reject when
the cooldown is still active, otherwise persist the new timestamp and,
when the collector executable was located, run it.  Messages shown by
`st.error`/`st.success` have no durable effect and are not modelled. -/
def refresh_gpu_body (w : World) (nowCheck nowWrite : ℚ)
    (ansiblePath : Option String) (outcome : ActionOutcome) :
    World × List Event × HandlerResult :=
  let current_gpu_time := get_global_last_refresh_time w catGpu
  let current_elapsed := nowCheck - current_gpu_time
  if current_gpu_time > 0 ∧ current_elapsed < GPU_REFRESH_COOLDOWN_SECONDS then
    (w, [Event.readTs catGpu], HandlerResult.cooldownRace)
  else
    let w₂ := set_global_last_refresh_time w nowWrite catGpu
    match ansiblePath with
    | none =>
      (w₂, [Event.readTs catGpu, Event.writeTs catGpu nowWrite], HandlerResult.collectorNotFound)
    | some _ =>
      match outcome with
      | .ok _ =>
        (w₂, [Event.readTs catGpu, Event.writeTs catGpu nowWrite, Event.runAction catGpu],
         HandlerResult.completed)
      | .procError _ _ =>
        (w₂, [Event.readTs catGpu, Event.writeTs catGpu nowWrite, Event.runAction catGpu],
         HandlerResult.completed)
      | .exn =>
        (w₂, [Event.readTs catGpu, Event.writeTs catGpu nowWrite, Event.runAction catGpu],
         HandlerResult.exnPropagated)

/-- The `refresh_gpu_clicked` handler (app.py lines 459-497): try to
acquire the execution lock; on denial show an error and stop; otherwise
run the protected body and release the lock in the `finally` clause on
every exit path. -/
def refresh_gpu_clicked (w : World) (nowCheck nowWrite : ℚ)
    (ansiblePath : Option String) (outcome : ActionOutcome) :
    World × List Event × HandlerResult :=
  let a := acquire_execution_lock w
  let w₁ := a.1
  let lock_file := a.2.1
  let lock_acquired := a.2.2
  if lock_acquired = false then (w₁, [], HandlerResult.lockDenied)
  else
    let r := refresh_gpu_body w₁ nowCheck nowWrite ansiblePath outcome
    (release_execution_lock r.1 lock_file, r.2.1 ++ [Event.release], r.2.2)

/-- The protected region of the info handler (app.py lines 506-539):
like the gpu body, but with the info category and cooldown, and — both
after a successful run and after a `CalledProcessError` — the captured
stdout is parsed (`e.stdout or ""` coincides with `e.stdout` for
strings) and the resulting summary written to
`info/health_status.json`. -/
def refresh_info_body (w : World) (nowCheck nowWrite : ℚ)
    (ansiblePath : Option String) (outcome : ActionOutcome) :
    World × List Event × HandlerResult :=
  let current_info_time := get_global_last_refresh_time w catInfo
  let current_elapsed := nowCheck - current_info_time
  if current_info_time > 0 ∧ current_elapsed < INFO_REFRESH_COOLDOWN_SECONDS then
    (w, [Event.readTs catInfo], HandlerResult.cooldownRace)
  else
    let w₂ := set_global_last_refresh_time w nowWrite catInfo
    match ansiblePath with
    | none =>
      (w₂, [Event.readTs catInfo, Event.writeTs catInfo nowWrite], HandlerResult.collectorNotFound)
    | some _ =>
      match outcome with
      | .ok stdout =>
        let health_status := parse_ansible_output stdout
        ({ w₂ with healthFile := some health_status },
         [Event.readTs catInfo, Event.writeTs catInfo nowWrite, Event.runAction catInfo,
          Event.writeSummary health_status],
         HandlerResult.completed)
      | .procError stdout _ =>
        let health_status := parse_ansible_output stdout
        ({ w₂ with healthFile := some health_status },
         [Event.readTs catInfo, Event.writeTs catInfo nowWrite, Event.runAction catInfo,
          Event.writeSummary health_status],
         HandlerResult.completed)
      | .exn =>
        (w₂, [Event.readTs catInfo, Event.writeTs catInfo nowWrite, Event.runAction catInfo],
         HandlerResult.exnPropagated)

/-- The `refresh_info_clicked` handler (app.py lines 500-541). -/
def refresh_info_clicked (w : World) (nowCheck nowWrite : ℚ)
    (ansiblePath : Option String) (outcome : ActionOutcome) :
    World × List Event × HandlerResult :=
  let a := acquire_execution_lock w
  let w₁ := a.1
  let lock_file := a.2.1
  let lock_acquired := a.2.2
  if lock_acquired = false then (w₁, [], HandlerResult.lockDenied)
  else
    let r := refresh_info_body w₁ nowCheck nowWrite ansiblePath outcome
    (release_execution_lock r.1 lock_file, r.2.1 ++ [Event.release], r.2.2)

/-- Number of lock releases in an event trace. -/
def releaseCount (l : List Event) : Nat :=
  l.countP fun e => match e with
    | .release => true
    | _ => false

/-- `e` is an event that mutates durable refresh state or invokes the
external collector. -/
def isStateEvent (e : Event) : Bool :=
  match e with
  | .writeTs _ _ => true
  | .runAction _ => true
  | .writeSummary _ => true
  | _ => false

/-- `a` occurs strictly before `b` in the trace `l`. -/
def eventsBefore (a b : Event) (l : List Event) : Prop :=
  ∃ l₁ l₂ l₃, l = l₁ ++ a :: l₂ ++ b :: l₃

/-- A world with no lock held and no persisted state, used to
instantiate universally quantified theorems. -/
def emptyWorld : World :=
  ⟨false, .missing, .missing, none⟩

/-- A world whose lock is currently held by some other process. -/
def lockedWorld : World :=
  ⟨true, .missing, .missing, none⟩

/-- An unrecognized category string, for instantiating the aliasing
theorem. -/
def typoCat : String := "gpu_status"

/-- A collector output line with `unreachable=1` and `failed=1` for a
host of the static mapping. -/
def precLine : String := "snu30 : ok=1 changed=0 unreachable=1 failed=1"

/-- Host identifier produced for `snu30`. -/
def snu30Info : String := "snu30 (147.46.91.30)"

/-- A two-line collector output in which the same unmapped host `h` is
reported once unreachable and once healthy. -/
def dupText : String := "h : ok=0 changed=0 unreachable=1 failed=0\nh : ok=1 changed=0 unreachable=0 failed=0"

/-- Host identifier produced for the unmapped host `h`. -/
def hUnknown : String := "h (Unknown)"

/-- A collector output with no per-host summary line. -/
def noMatchText : String := "PLAY RECAP all good"

/-- Concrete collector path used to instantiate theorems. -/
def somePath : String := "/usr/bin/ansible-playbook"

/-- The empty captured output of a collector run that produced nothing. -/
def emptyOut : String := ""

/-- Concrete captured stderr text used to instantiate theorems. -/
def errText : String := "boom"

/-! ## Theorems -/

/-- Python `int()` of an integer-valued rational is that integer. -/
theorem pyInt_intCast (n : ℤ) : pyInt ((n : ℚ)) = n := by
  unfold pyInt
  split
  · exact Int.floor_intCast n
  · exact Int.ceil_intCast n

/-- C2: for two acquisition attempts in sequence, at most one is
granted; while the lock is held every attempt returns `(None, False)`
with the state unchanged; and once the holder releases, a new attempt is
granted again. -/
theorem C2_lock_mutual_exclusion (w : World) :
    (¬ ((acquire_execution_lock w).2.2 = true ∧
        (acquire_execution_lock (acquire_execution_lock w).1).2.2 = true))
    ∧ (w.lockHeld = true → acquire_execution_lock w = (w, none, false))
    ∧ ((acquire_execution_lock w).2.2 = true →
        acquire_execution_lock (acquire_execution_lock w).1 =
          ((acquire_execution_lock w).1, none, false))
    ∧ ((acquire_execution_lock w).2.2 = true →
        (acquire_execution_lock
          (release_execution_lock (acquire_execution_lock w).1
            (acquire_execution_lock w).2.1)).2.2 = true) := by
  obtain ⟨lh, g, i, hf⟩ := w
  cases lh <;> simp [acquire_execution_lock, release_execution_lock]

/-- Witness for C2 at a concrete held lock. -/
theorem C2_witness : acquire_execution_lock lockedWorld = (lockedWorld, none, false) :=
  (C2_lock_mutual_exclusion lockedWorld).2.1 rfl

/-- C7: a missing, unreadable or non-numeric timestamp file reads as
absent (`0.0`) for either category, and a write of a numeric timestamp
is read back exactly. -/
theorem C7_store_roundtrip (w : World) (t : ℚ) :
    (w.gpuTs = .missing ∨ w.gpuTs = .unreadable ∨ w.gpuTs = .nonNumeric →
      get_global_last_refresh_time w catGpu = 0)
    ∧ (w.infoTs = .missing ∨ w.infoTs = .unreadable ∨ w.infoTs = .nonNumeric →
      get_global_last_refresh_time w catInfo = 0)
    ∧ get_global_last_refresh_time (set_global_last_refresh_time w t catGpu) catGpu = t
    ∧ get_global_last_refresh_time (set_global_last_refresh_time w t catInfo) catInfo = t := by
  refine ⟨?_, ?_, ?_, ?_⟩
  · rintro (h | h | h) <;>
      simp [get_global_last_refresh_time, set_global_last_refresh_time, catGpu, catInfo, h]
  · rintro (h | h | h) <;>
      simp [get_global_last_refresh_time, set_global_last_refresh_time, catGpu, catInfo, h]
  · simp [get_global_last_refresh_time, set_global_last_refresh_time, catGpu, catInfo]
  · simp [get_global_last_refresh_time, set_global_last_refresh_time, catGpu, catInfo]

/-- Witness for C7: a garbage gpu timestamp file reads as 0, and after
writing 5.0 the gpu category reads back 5.0. -/
theorem C7_witness :
    get_global_last_refresh_time ⟨false, .nonNumeric, .missing, none⟩ catGpu = 0
    ∧ get_global_last_refresh_time
        (set_global_last_refresh_time ⟨false, .nonNumeric, .missing, none⟩ 5 catGpu) catGpu = 5 :=
  ⟨(C7_store_roundtrip ⟨false, .nonNumeric, .missing, none⟩ 5).1 (Or.inr (Or.inr rfl)),
   (C7_store_roundtrip ⟨false, .nonNumeric, .missing, none⟩ 5).2.2.1⟩

/-- C10: any category string other than `"gpu"` — not only `"info"` —
reads and writes the info category's timestamp file. -/
theorem C10_unknown_category_aliases_info (w : World) (t : ℚ) (s : String) (h : s ≠ catGpu) :
    get_global_last_refresh_time w s = get_global_last_refresh_time w catInfo
    ∧ set_global_last_refresh_time w t s = set_global_last_refresh_time w t catInfo := by
  have h' : ¬ s = "gpu" := by simpa [catGpu] using h
  constructor <;>
    simp [get_global_last_refresh_time, set_global_last_refresh_time, catGpu, catInfo, h']

/-- Witness for C10 at the concrete misspelled category. -/
theorem C10_witness :
    get_global_last_refresh_time emptyWorld typoCat =
      get_global_last_refresh_time emptyWorld catInfo
    ∧ set_global_last_refresh_time emptyWorld 3 typoCat =
      set_global_last_refresh_time emptyWorld 3 catInfo :=
  C10_unknown_category_aliases_info emptyWorld 3 typoCat (by decide)

/-- C3 as stated is false on the code: the remaining time is the Python
`int()` truncation of `D - (now - T)`, not that exact value, and a
nonpositive stored timestamp is treated as absent rather than cooled
down.  At `T = 1`, `D = 300`, `now = 3/2` the code reports remaining
`299` while `D - (now - T) = 299.5`; at `T = -5`, `D = 300`, `now = 0`
the code allows the refresh although `now - T < D`. -/
theorem C3_counterexample :
    cooldown_check 1 300 (3 / 2) = (false, 299)
    ∧ ((299 : ℚ) ≠ 300 - (3 / 2 - 1))
    ∧ (cooldown_check (-5) 300 0).1 = true := by
  refine ⟨?_, by norm_num, ?_⟩
  · norm_num [cooldown_check, pyInt]
  · norm_num [cooldown_check]

/-- C3 (amended): a nonpositive (in particular absent, read as 0) last
timestamp gives `allowed = true, remaining = 0`; for a positive last
timestamp `T`, if `now - T < D` the refresh is blocked with
`remaining = int(D - (now - T))` (Python truncation), which equals
`D - (now - T)` exactly whenever `T`, `D`, `now` are integral; and if
`now - T ≥ D` the refresh is allowed with `remaining = 0`. -/
theorem C3_cooldown_evaluation (T D now : ℚ) :
    (T ≤ 0 → cooldown_check T D now = (true, 0))
    ∧ (0 < T → now - T < D → cooldown_check T D now = (false, pyInt (D - (now - T))))
    ∧ (0 < T → D ≤ now - T → cooldown_check T D now = (true, 0))
    ∧ (∀ a d n : ℤ, 0 < a → (n : ℚ) - (a : ℚ) < (d : ℚ) →
        cooldown_check (a : ℚ) (d : ℚ) (n : ℚ) = (false, d - (n - a))) := by
  have hmain : ∀ T' D' now' : ℚ, 0 < T' → now' - T' < D' →
      cooldown_check T' D' now' = (false, pyInt (D' - (now' - T'))) := by
    intro T' D' now' h1 h2
    simp only [cooldown_check]
    rw [if_pos h1, if_pos h2]
  refine ⟨?_, hmain T D now, ?_, ?_⟩
  · intro h
    simp only [cooldown_check]
    rw [if_neg (by linarith)]
  · intro h1 h2
    simp only [cooldown_check]
    rw [if_pos h1, if_neg (by linarith)]
  · intro a d n ha hlt
    have h1 : (0 : ℚ) < (a : ℚ) := by exact_mod_cast ha
    rw [hmain (a : ℚ) (d : ℚ) (n : ℚ) h1 hlt]
    have hc : ((d : ℚ) - ((n : ℚ) - (a : ℚ))) = (((d - (n - a) : ℤ)) : ℚ) := by
      push_cast
      ring
    rw [hc, pyInt_intCast]

/-- Witness for C3 (amended) at `T = 60`, `D = 300`, `now = 120`:
blocked with 240 seconds remaining. -/
theorem C3_witness : cooldown_check 60 300 120 = (false, 240) := by
  have h := (C3_cooldown_evaluation 60 300 120).2.2.2 60 300 120 (by norm_num) (by norm_num)
  norm_num at h
  exact h

/-- Writing with the gpu category updates the gpu timestamp file. -/
theorem set_gpu_eq (w : World) (t : ℚ) :
    set_global_last_refresh_time w t catGpu = { w with gpuTs := FileContent.numeric t } := rfl

/-- Writing with the info category updates the info timestamp file. -/
theorem set_info_eq (w : World) (t : ℚ) :
    set_global_last_refresh_time w t catInfo = { w with infoTs := FileContent.numeric t } := rfl

/-- Path lemma: the gpu handler under a held lock. -/
theorem refresh_gpu_denied (w : World) (nc nw : ℚ) (path : Option String) (oc : ActionOutcome)
    (h : w.lockHeld = true) :
    refresh_gpu_clicked w nc nw path oc = (w, [], HandlerResult.lockDenied) := by
  obtain ⟨lh, g, i, hf⟩ := w
  have h' : lh = true := h
  subst h'
  rfl

/-- Path lemma: the gpu handler when the lock is granted but the re-read
cooldown is still active. -/
theorem refresh_gpu_race (w : World) (nc nw : ℚ) (path : Option String) (oc : ActionOutcome)
    (h : w.lockHeld = false)
    (hc : get_global_last_refresh_time w catGpu > 0 ∧
      nc - get_global_last_refresh_time w catGpu < GPU_REFRESH_COOLDOWN_SECONDS) :
    refresh_gpu_clicked w nc nw path oc =
      (w, [Event.readTs catGpu, Event.release], HandlerResult.cooldownRace) := by
  obtain ⟨lh, g, i, hf⟩ := w
  have h' : lh = false := h
  subst h'
  have hc' : 0 < get_global_last_refresh_time ⟨true, g, i, hf⟩ catGpu ∧
      nc - get_global_last_refresh_time ⟨true, g, i, hf⟩ catGpu <
        GPU_REFRESH_COOLDOWN_SECONDS := hc
  simp [refresh_gpu_clicked, refresh_gpu_body, acquire_execution_lock,
    release_execution_lock, set_gpu_eq, set_info_eq, hc'.1, hc'.2]

/-- Path lemma: gpu handler, lock granted, cooldown passed, collector
not found. -/
theorem refresh_gpu_notfound (w : World) (nc nw : ℚ) (oc : ActionOutcome)
    (h : w.lockHeld = false)
    (hc : ¬ (get_global_last_refresh_time w catGpu > 0 ∧
      nc - get_global_last_refresh_time w catGpu < GPU_REFRESH_COOLDOWN_SECONDS)) :
    refresh_gpu_clicked w nc nw none oc =
      ({ w with gpuTs := FileContent.numeric nw },
       [Event.readTs catGpu, Event.writeTs catGpu nw, Event.release],
       HandlerResult.collectorNotFound) := by
  obtain ⟨lh, g, i, hf⟩ := w
  have h' : lh = false := h
  subst h'
  have hc' : ¬ (0 < get_global_last_refresh_time ⟨true, g, i, hf⟩ catGpu ∧
      nc - get_global_last_refresh_time ⟨true, g, i, hf⟩ catGpu <
        GPU_REFRESH_COOLDOWN_SECONDS) := hc
  simp [refresh_gpu_clicked, refresh_gpu_body, acquire_execution_lock,
    release_execution_lock, set_gpu_eq, set_info_eq, hc']

/-- Path lemma: gpu handler, lock granted, cooldown passed, collector
found; covers normal completion, `CalledProcessError` and any other
exception. -/
theorem refresh_gpu_run (w : World) (nc nw : ℚ) (p : String) (oc : ActionOutcome)
    (h : w.lockHeld = false)
    (hc : ¬ (get_global_last_refresh_time w catGpu > 0 ∧
      nc - get_global_last_refresh_time w catGpu < GPU_REFRESH_COOLDOWN_SECONDS)) :
    refresh_gpu_clicked w nc nw (some p) oc =
      ({ w with gpuTs := FileContent.numeric nw },
       [Event.readTs catGpu, Event.writeTs catGpu nw, Event.runAction catGpu, Event.release],
       match oc with
       | .ok _ => HandlerResult.completed
       | .procError _ _ => HandlerResult.completed
       | .exn => HandlerResult.exnPropagated) := by
  obtain ⟨lh, g, i, hf⟩ := w
  have h' : lh = false := h
  subst h'
  have hc' : ¬ (0 < get_global_last_refresh_time ⟨true, g, i, hf⟩ catGpu ∧
      nc - get_global_last_refresh_time ⟨true, g, i, hf⟩ catGpu <
        GPU_REFRESH_COOLDOWN_SECONDS) := hc
  rcases oc with s | ⟨s, e⟩ | _ <;>
    simp [refresh_gpu_clicked, refresh_gpu_body, acquire_execution_lock,
      release_execution_lock, set_gpu_eq, set_info_eq, hc']

/-- Path lemma: the info handler under a held lock. -/
theorem refresh_info_denied (w : World) (nc nw : ℚ) (path : Option String) (oc : ActionOutcome)
    (h : w.lockHeld = true) :
    refresh_info_clicked w nc nw path oc = (w, [], HandlerResult.lockDenied) := by
  obtain ⟨lh, g, i, hf⟩ := w
  have h' : lh = true := h
  subst h'
  rfl

/-- Path lemma: the info handler when the lock is granted but the
re-read cooldown is still active. -/
theorem refresh_info_race (w : World) (nc nw : ℚ) (path : Option String) (oc : ActionOutcome)
    (h : w.lockHeld = false)
    (hc : get_global_last_refresh_time w catInfo > 0 ∧
      nc - get_global_last_refresh_time w catInfo < INFO_REFRESH_COOLDOWN_SECONDS) :
    refresh_info_clicked w nc nw path oc =
      (w, [Event.readTs catInfo, Event.release], HandlerResult.cooldownRace) := by
  obtain ⟨lh, g, i, hf⟩ := w
  have h' : lh = false := h
  subst h'
  have hc' : 0 < get_global_last_refresh_time ⟨true, g, i, hf⟩ catInfo ∧
      nc - get_global_last_refresh_time ⟨true, g, i, hf⟩ catInfo <
        INFO_REFRESH_COOLDOWN_SECONDS := hc
  simp [refresh_info_clicked, refresh_info_body, acquire_execution_lock,
    release_execution_lock, set_gpu_eq, set_info_eq, hc'.1, hc'.2]

/-- Path lemma: info handler, lock granted, cooldown passed, collector
not found. -/
theorem refresh_info_notfound (w : World) (nc nw : ℚ) (oc : ActionOutcome)
    (h : w.lockHeld = false)
    (hc : ¬ (get_global_last_refresh_time w catInfo > 0 ∧
      nc - get_global_last_refresh_time w catInfo < INFO_REFRESH_COOLDOWN_SECONDS)) :
    refresh_info_clicked w nc nw none oc =
      ({ w with infoTs := FileContent.numeric nw },
       [Event.readTs catInfo, Event.writeTs catInfo nw, Event.release],
       HandlerResult.collectorNotFound) := by
  obtain ⟨lh, g, i, hf⟩ := w
  have h' : lh = false := h
  subst h'
  have hc' : ¬ (0 < get_global_last_refresh_time ⟨true, g, i, hf⟩ catInfo ∧
      nc - get_global_last_refresh_time ⟨true, g, i, hf⟩ catInfo <
        INFO_REFRESH_COOLDOWN_SECONDS) := hc
  simp [refresh_info_clicked, refresh_info_body, acquire_execution_lock,
    release_execution_lock, set_gpu_eq, set_info_eq, hc']

/-- Path lemma: info handler, lock granted, cooldown passed, collector
found, external action succeeds: the parsed summary is persisted. -/
theorem refresh_info_ok (w : World) (nc nw : ℚ) (p s : String)
    (h : w.lockHeld = false)
    (hc : ¬ (get_global_last_refresh_time w catInfo > 0 ∧
      nc - get_global_last_refresh_time w catInfo < INFO_REFRESH_COOLDOWN_SECONDS)) :
    refresh_info_clicked w nc nw (some p) (ActionOutcome.ok s) =
      ({ w with infoTs := FileContent.numeric nw,
                healthFile := some (parse_ansible_output s) },
       [Event.readTs catInfo, Event.writeTs catInfo nw, Event.runAction catInfo,
        Event.writeSummary (parse_ansible_output s), Event.release],
       HandlerResult.completed) := by
  obtain ⟨lh, g, i, hf⟩ := w
  have h' : lh = false := h
  subst h'
  have hc' : ¬ (0 < get_global_last_refresh_time ⟨true, g, i, hf⟩ catInfo ∧
      nc - get_global_last_refresh_time ⟨true, g, i, hf⟩ catInfo <
        INFO_REFRESH_COOLDOWN_SECONDS) := hc
  simp [refresh_info_clicked, refresh_info_body, acquire_execution_lock,
    release_execution_lock, set_gpu_eq, set_info_eq, hc']

/-- Path lemma: info handler, lock granted, cooldown passed, collector
found, `CalledProcessError`: the summary parsed from the captured stdout
(possibly empty) is still persisted. -/
theorem refresh_info_procError (w : World) (nc nw : ℚ) (p s e : String)
    (h : w.lockHeld = false)
    (hc : ¬ (get_global_last_refresh_time w catInfo > 0 ∧
      nc - get_global_last_refresh_time w catInfo < INFO_REFRESH_COOLDOWN_SECONDS)) :
    refresh_info_clicked w nc nw (some p) (ActionOutcome.procError s e) =
      ({ w with infoTs := FileContent.numeric nw,
                healthFile := some (parse_ansible_output s) },
       [Event.readTs catInfo, Event.writeTs catInfo nw, Event.runAction catInfo,
        Event.writeSummary (parse_ansible_output s), Event.release],
       HandlerResult.completed) := by
  obtain ⟨lh, g, i, hf⟩ := w
  have h' : lh = false := h
  subst h'
  have hc' : ¬ (0 < get_global_last_refresh_time ⟨true, g, i, hf⟩ catInfo ∧
      nc - get_global_last_refresh_time ⟨true, g, i, hf⟩ catInfo <
        INFO_REFRESH_COOLDOWN_SECONDS) := hc
  simp [refresh_info_clicked, refresh_info_body, acquire_execution_lock,
    release_execution_lock, set_gpu_eq, set_info_eq, hc']

/-- Path lemma: info handler, lock granted, cooldown passed, collector
found, some other exception: no summary write, the lock is still
released. -/
theorem refresh_info_exn (w : World) (nc nw : ℚ) (p : String)
    (h : w.lockHeld = false)
    (hc : ¬ (get_global_last_refresh_time w catInfo > 0 ∧
      nc - get_global_last_refresh_time w catInfo < INFO_REFRESH_COOLDOWN_SECONDS)) :
    refresh_info_clicked w nc nw (some p) ActionOutcome.exn =
      ({ w with infoTs := FileContent.numeric nw },
       [Event.readTs catInfo, Event.writeTs catInfo nw, Event.runAction catInfo, Event.release],
       HandlerResult.exnPropagated) := by
  obtain ⟨lh, g, i, hf⟩ := w
  have h' : lh = false := h
  subst h'
  have hc' : ¬ (0 < get_global_last_refresh_time ⟨true, g, i, hf⟩ catInfo ∧
      nc - get_global_last_refresh_time ⟨true, g, i, hf⟩ catInfo <
        INFO_REFRESH_COOLDOWN_SECONDS) := hc
  simp [refresh_info_clicked, refresh_info_body, acquire_execution_lock,
    release_execution_lock, set_gpu_eq, set_info_eq, hc']

/-- Reading any category of the empty world yields the absent value. -/
theorem get_emptyWorld (s : String) : get_global_last_refresh_time emptyWorld s = 0 := by
  by_cases hs : s = catGpu <;> simp [get_global_last_refresh_time, emptyWorld, hs]

/-- C1: in either handler, whenever `acquire_execution_lock` grants the
lock the trace contains exactly one release (performed by the `finally`
clause), on every exit path — cooldown race, collector not found,
successful run, `CalledProcessError`, or any other exception raised in
the protected region; when the lock is denied no release happens. -/
theorem C1_release_exactly_once (w : World) (nc nw : ℚ)
    (path : Option String) (oc : ActionOutcome) :
    releaseCount (refresh_gpu_clicked w nc nw path oc).2.1 =
      (if (acquire_execution_lock w).2.2 = true then 1 else 0)
    ∧ releaseCount (refresh_info_clicked w nc nw path oc).2.1 =
      (if (acquire_execution_lock w).2.2 = true then 1 else 0) := by
  cases hl : w.lockHeld
  case true =>
    rw [refresh_gpu_denied w nc nw path oc hl, refresh_info_denied w nc nw path oc hl]
    simp [releaseCount, acquire_execution_lock, hl]
  case false =>
    constructor
    · rcases em (get_global_last_refresh_time w catGpu > 0 ∧
          nc - get_global_last_refresh_time w catGpu < GPU_REFRESH_COOLDOWN_SECONDS) with hg | hg
      · rw [refresh_gpu_race w nc nw path oc hl hg]
        simp [releaseCount, acquire_execution_lock, hl, List.countP_cons, List.countP_nil]
      · rcases path with _ | p
        · rw [refresh_gpu_notfound w nc nw oc hl hg]
          simp [releaseCount, acquire_execution_lock, hl, List.countP_cons, List.countP_nil]
        · rw [refresh_gpu_run w nc nw p oc hl hg]
          simp [releaseCount, acquire_execution_lock, hl, List.countP_cons, List.countP_nil]
    · rcases em (get_global_last_refresh_time w catInfo > 0 ∧
          nc - get_global_last_refresh_time w catInfo < INFO_REFRESH_COOLDOWN_SECONDS) with hi | hi
      · rw [refresh_info_race w nc nw path oc hl hi]
        simp [releaseCount, acquire_execution_lock, hl, List.countP_cons, List.countP_nil]
      · rcases path with _ | p
        · rw [refresh_info_notfound w nc nw oc hl hi]
          simp [releaseCount, acquire_execution_lock, hl, List.countP_cons, List.countP_nil]
        · rcases oc with s | ⟨s, e⟩ | _
          · rw [refresh_info_ok w nc nw p s hl hi]
            simp [releaseCount, acquire_execution_lock, hl, List.countP_cons, List.countP_nil]
          · rw [refresh_info_procError w nc nw p s e hl hi]
            simp [releaseCount, acquire_execution_lock, hl, List.countP_cons, List.countP_nil]
          · rw [refresh_info_exn w nc nw p hl hi]
            simp [releaseCount, acquire_execution_lock, hl, List.countP_cons, List.countP_nil]

/-- C6: a rejected attempt — lock denied, or cooldown found active by
the under-lock re-check — leaves the whole persisted state unchanged,
invokes no external action and writes neither timestamps nor the health
summary, in either handler. -/
theorem C6_rejected_attempt_no_effect (w : World) (nc nw : ℚ)
    (path : Option String) (oc : ActionOutcome) :
    (w.lockHeld = true →
      (refresh_gpu_clicked w nc nw path oc).1 = w
      ∧ (∀ e ∈ (refresh_gpu_clicked w nc nw path oc).2.1, isStateEvent e = false)
      ∧ (refresh_info_clicked w nc nw path oc).1 = w
      ∧ (∀ e ∈ (refresh_info_clicked w nc nw path oc).2.1, isStateEvent e = false))
    ∧ (w.lockHeld = false →
      (get_global_last_refresh_time w catGpu > 0 ∧
        nc - get_global_last_refresh_time w catGpu < GPU_REFRESH_COOLDOWN_SECONDS) →
      (refresh_gpu_clicked w nc nw path oc).1 = w
      ∧ ∀ e ∈ (refresh_gpu_clicked w nc nw path oc).2.1, isStateEvent e = false)
    ∧ (w.lockHeld = false →
      (get_global_last_refresh_time w catInfo > 0 ∧
        nc - get_global_last_refresh_time w catInfo < INFO_REFRESH_COOLDOWN_SECONDS) →
      (refresh_info_clicked w nc nw path oc).1 = w
      ∧ ∀ e ∈ (refresh_info_clicked w nc nw path oc).2.1, isStateEvent e = false) := by
  refine ⟨?_, ?_, ?_⟩
  · intro hl
    rw [refresh_gpu_denied w nc nw path oc hl, refresh_info_denied w nc nw path oc hl]
    simp [isStateEvent]
  · intro hl hg
    rw [refresh_gpu_race w nc nw path oc hl hg]
    simp [isStateEvent]
  · intro hl hi
    rw [refresh_info_race w nc nw path oc hl hi]
    simp [isStateEvent]

/-- Witness for C6: a held lock leaves the world untouched. -/
theorem C6_witness :
    (refresh_gpu_clicked lockedWorld 0 1 none ActionOutcome.exn).1 = lockedWorld :=
  ((C6_rejected_attempt_no_effect lockedWorld 0 1 none ActionOutcome.exn).1 rfl).1

/-- C5: whenever the lock is granted and the under-lock cooldown
re-check passes, the new timestamp for the category is persisted before
the external action is invoked (when the collector is found) and before
the lock is released — so the cooldown binds even if the action fails or
the collector cannot be located. -/
theorem C5_timestamp_persisted_first (w : World) (nc nw : ℚ)
    (path : Option String) (oc : ActionOutcome) (h : w.lockHeld = false) :
    (¬ (get_global_last_refresh_time w catGpu > 0 ∧
        nc - get_global_last_refresh_time w catGpu < GPU_REFRESH_COOLDOWN_SECONDS) →
      (refresh_gpu_clicked w nc nw path oc).1.gpuTs = FileContent.numeric nw
      ∧ eventsBefore (Event.writeTs catGpu nw) Event.release
          (refresh_gpu_clicked w nc nw path oc).2.1
      ∧ ∀ p, path = some p →
          eventsBefore (Event.writeTs catGpu nw) (Event.runAction catGpu)
            (refresh_gpu_clicked w nc nw path oc).2.1)
    ∧ (¬ (get_global_last_refresh_time w catInfo > 0 ∧
        nc - get_global_last_refresh_time w catInfo < INFO_REFRESH_COOLDOWN_SECONDS) →
      (refresh_info_clicked w nc nw path oc).1.infoTs = FileContent.numeric nw
      ∧ eventsBefore (Event.writeTs catInfo nw) Event.release
          (refresh_info_clicked w nc nw path oc).2.1
      ∧ ∀ p, path = some p →
          eventsBefore (Event.writeTs catInfo nw) (Event.runAction catInfo)
            (refresh_info_clicked w nc nw path oc).2.1) := by
  constructor
  · intro hg
    rcases path with _ | p
    · rw [refresh_gpu_notfound w nc nw oc h hg]
      refine ⟨rfl, ⟨[Event.readTs catGpu], [], [], rfl⟩, ?_⟩
      intro p hp
      cases hp
    · rw [refresh_gpu_run w nc nw p oc h hg]
      refine ⟨rfl, ⟨[Event.readTs catGpu], [Event.runAction catGpu], [], rfl⟩, ?_⟩
      intro p' hp
      exact ⟨[Event.readTs catGpu], [], [Event.release], rfl⟩
  · intro hi
    rcases path with _ | p
    · rw [refresh_info_notfound w nc nw oc h hi]
      refine ⟨rfl, ⟨[Event.readTs catInfo], [], [], rfl⟩, ?_⟩
      intro p hp
      cases hp
    · rcases oc with s | ⟨s, e⟩ | _
      · rw [refresh_info_ok w nc nw p s h hi]
        refine ⟨rfl,
          ⟨[Event.readTs catInfo],
           [Event.runAction catInfo, Event.writeSummary (parse_ansible_output s)], [], rfl⟩, ?_⟩
        intro p' hp
        exact ⟨[Event.readTs catInfo], [],
          [Event.writeSummary (parse_ansible_output s), Event.release], rfl⟩
      · rw [refresh_info_procError w nc nw p s e h hi]
        refine ⟨rfl,
          ⟨[Event.readTs catInfo],
           [Event.runAction catInfo, Event.writeSummary (parse_ansible_output s)], [], rfl⟩, ?_⟩
        intro p' hp
        exact ⟨[Event.readTs catInfo], [],
          [Event.writeSummary (parse_ansible_output s), Event.release], rfl⟩
      · rw [refresh_info_exn w nc nw p h hi]
        refine ⟨rfl, ⟨[Event.readTs catInfo], [Event.runAction catInfo], [], rfl⟩, ?_⟩
        intro p' hp
        exact ⟨[Event.readTs catInfo], [], [Event.release], rfl⟩

/-- Witness for C5 on the empty world: the gpu timestamp write precedes
the release in the trace of a failing run. -/
theorem C5_witness :
    (refresh_gpu_clicked emptyWorld 0 100 (some somePath) ActionOutcome.exn).1.gpuTs =
      FileContent.numeric 100
    ∧ eventsBefore (Event.writeTs catGpu 100) Event.release
        (refresh_gpu_clicked emptyWorld 0 100 (some somePath) ActionOutcome.exn).2.1 := by
  have h := (C5_timestamp_persisted_first emptyWorld 0 100 (some somePath)
    ActionOutcome.exn rfl).1 (by simp [get_emptyWorld])
  exact ⟨h.1, h.2.1⟩

/-- C4 fails as stated on the code: after a `CalledProcessError` with no
captured output, the info handler still parses the empty string and
persists the resulting empty health summary (the write of
`info/health_status.json` at app.py line 536 sits outside the
`try`/`except`, so it runs after the `except` branch as well). -/
theorem C4_counterexample :
    (refresh_info_clicked emptyWorld 0 100 (some somePath)
        (ActionOutcome.procError emptyOut errText)).1.healthFile = some ⟨[], [], []⟩
    ∧ emptyWorld.healthFile = none := by
  constructor
  · rw [refresh_info_procError emptyWorld 0 100 somePath emptyOut errText rfl
      (by simp [get_emptyWorld])]
    rfl
  · rfl

/-- C4 (amended): for the info category the health summary parsed from
the captured stdout is persisted both on success and on
`CalledProcessError` — including a failure with no captured output,
which persists an empty summary; only a collector that cannot be located
or a non-`CalledProcessError` exception leaves the health-summary file
unwritten; the gpu category never writes the health-summary file. -/
theorem C4_health_summary_persistence (w : World) (nc nw : ℚ) (oc : ActionOutcome)
    (p s e : String) (h : w.lockHeld = false)
    (hc : ¬ (get_global_last_refresh_time w catInfo > 0 ∧
      nc - get_global_last_refresh_time w catInfo < INFO_REFRESH_COOLDOWN_SECONDS)) :
    (refresh_info_clicked w nc nw (some p) (ActionOutcome.ok s)).1.healthFile
        = some (parse_ansible_output s)
    ∧ (refresh_info_clicked w nc nw (some p) (ActionOutcome.procError s e)).1.healthFile
        = some (parse_ansible_output s)
    ∧ (refresh_info_clicked w nc nw (some p) ActionOutcome.exn).1.healthFile = w.healthFile
    ∧ (refresh_info_clicked w nc nw none oc).1.healthFile = w.healthFile
    ∧ (∀ path oc₂, (refresh_gpu_clicked w nc nw path oc₂).1.healthFile = w.healthFile)
    ∧ (∀ path oc₂ hs,
        Event.writeSummary hs ∉ (refresh_gpu_clicked w nc nw path oc₂).2.1) := by
  refine ⟨?_, ?_, ?_, ?_, ?_, ?_⟩
  · rw [refresh_info_ok w nc nw p s h hc]
  · rw [refresh_info_procError w nc nw p s e h hc]
  · rw [refresh_info_exn w nc nw p h hc]
  · rw [refresh_info_notfound w nc nw oc h hc]
  · intro path oc₂
    rcases em (get_global_last_refresh_time w catGpu > 0 ∧
        nc - get_global_last_refresh_time w catGpu < GPU_REFRESH_COOLDOWN_SECONDS) with hg | hg
    · rw [refresh_gpu_race w nc nw path oc₂ h hg]
    · rcases path with _ | p'
      · rw [refresh_gpu_notfound w nc nw oc₂ h hg]
      · rw [refresh_gpu_run w nc nw p' oc₂ h hg]
  · intro path oc₂ hs
    rcases em (get_global_last_refresh_time w catGpu > 0 ∧
        nc - get_global_last_refresh_time w catGpu < GPU_REFRESH_COOLDOWN_SECONDS) with hg | hg
    · rw [refresh_gpu_race w nc nw path oc₂ h hg]
      simp
    · rcases path with _ | p'
      · rw [refresh_gpu_notfound w nc nw oc₂ h hg]
        simp
      · rw [refresh_gpu_run w nc nw p' oc₂ h hg]
        simp

/-- Witness for C4 (amended) on the empty world: a successful run
persists the parsed summary and an exception persists nothing. -/
theorem C4_witness :
    (refresh_info_clicked emptyWorld 0 100 (some somePath)
        (ActionOutcome.ok emptyOut)).1.healthFile = some (parse_ansible_output emptyOut)
    ∧ (refresh_info_clicked emptyWorld 0 100 (some somePath)
        ActionOutcome.exn).1.healthFile = emptyWorld.healthFile := by
  have h := C4_health_summary_persistence emptyWorld 0 100 ActionOutcome.exn
    somePath emptyOut errText rfl (by simp [get_emptyWorld])
  exact ⟨h.1, h.2.2.1⟩

/-- The per-line loop unfolded: each matching line contributes its host
identifier to exactly the list selected by its classification
predicate, in input order; non-matching lines contribute nothing. -/
theorem foldl_parseStep (lines : List (List Char)) (acc : HealthSummary) :
    lines.foldl parseStep acc =
      ⟨acc.unreachable ++ ((lines.filterMap searchLine).filter unreachableLine).map host_info_of,
       acc.failed ++ ((lines.filterMap searchLine).filter failedLine).map host_info_of,
       acc.success ++ ((lines.filterMap searchLine).filter healthyLine).map host_info_of⟩ := by
  induction lines generalizing acc with
  | nil => simp
  | cons l ls ih =>
    rw [List.foldl_cons, ih]
    cases hsl : searchLine l with
    | none => simp [parseStep, hsl]
    | some m =>
      by_cases hu : 0 < m.unreachable
      · have h1 : unreachableLine m = true := by simp [unreachableLine, hu]
        have h2 : failedLine m = false := by
          simp only [failedLine, decide_eq_false_iff_not]
          omega
        have h3 : healthyLine m = false := by
          simp only [healthyLine, decide_eq_false_iff_not]
          omega
        simp [parseStep, hsl, hu, h1, h2, h3]
      · by_cases hfa : 0 < m.failed
        · have h1 : unreachableLine m = false := by
            simp only [unreachableLine, decide_eq_false_iff_not]
            omega
          have h2 : failedLine m = true := by
            simp only [failedLine, decide_eq_true_eq]
            omega
          have h3 : healthyLine m = false := by
            simp only [healthyLine, decide_eq_false_iff_not]
            omega
          simp [parseStep, hsl, hu, hfa, h1, h2, h3]
        · have h1 : unreachableLine m = false := by
            simp only [unreachableLine, decide_eq_false_iff_not]
            omega
          have h2 : failedLine m = false := by
            simp only [failedLine, decide_eq_false_iff_not]
            omega
          have h3 : healthyLine m = true := by
            simp only [healthyLine, decide_eq_true_eq]
            omega
          simp [parseStep, hsl, hu, hfa, h1, h2, h3]

/-- `parse_ansible_output` in closed form: the three lists are the
classification filters of the matched lines. -/
theorem parse_eq_filters (output : String) :
    parse_ansible_output output =
      ⟨((matchedLines output).filter unreachableLine).map host_info_of,
       ((matchedLines output).filter failedLine).map host_info_of,
       ((matchedLines output).filter healthyLine).map host_info_of⟩ := by
  unfold parse_ansible_output matchedLines
  rw [foldl_parseStep]
  simp

/-- The failed-classification predicate in terms of the other two. -/
theorem failedLine_eq (m : LineMatch) :
    failedLine m = (decide (0 < m.failed) && !unreachableLine m) := by
  rcases m with ⟨h, o, c, u, f⟩
  cases u <;> simp [failedLine, unreachableLine]

/-- The healthy-classification predicate in terms of the other two. -/
theorem healthyLine_eq (m : LineMatch) :
    healthyLine m = (!decide (0 < m.failed) && !unreachableLine m) := by
  rcases m with ⟨h, o, c, u, f⟩
  cases u <;> cases f <;> simp [healthyLine, unreachableLine]

/-- The three classification filters partition the matched lines. -/
theorem filters_perm (M : List LineMatch) :
    List.Perm (M.filter unreachableLine ++ (M.filter failedLine ++ M.filter healthyLine)) M := by
  have e1 : M.filter failedLine =
      (M.filter fun m => !unreachableLine m).filter fun m => decide (0 < m.failed) := by
    rw [List.filter_filter]
    exact List.filter_congr fun m _ => failedLine_eq m
  have e2 : M.filter healthyLine =
      (M.filter fun m => !unreachableLine m).filter fun m => !decide (0 < m.failed) := by
    rw [List.filter_filter]
    exact List.filter_congr fun m _ => healthyLine_eq m
  rw [e1, e2]
  exact ((List.filter_append_perm _ _).append_left _).trans
    (List.filter_append_perm unreachableLine M)

/-- C8: classification of matched collector-output lines follows strict
precedence — `unreachable_count > 0` classifies the host unreachable
regardless of `failed_count` (the filter ignores `failed`), else
`failed_count > 0` classifies it failed, else healthy; non-matching
lines are ignored, so an input with no matching line parses to three
empty lists; concretely, a line with `unreachable=1 failed=1` lands in
the unreachable list only. -/
theorem C8_classification_precedence (output : String) :
    (parse_ansible_output output).unreachable =
        ((matchedLines output).filter unreachableLine).map host_info_of
    ∧ (parse_ansible_output output).failed =
        ((matchedLines output).filter failedLine).map host_info_of
    ∧ (parse_ansible_output output).success =
        ((matchedLines output).filter healthyLine).map host_info_of
    ∧ (matchedLines output = [] → parse_ansible_output output = ⟨[], [], []⟩)
    ∧ parse_ansible_output precLine = ⟨[snu30Info], [], []⟩ := by
  refine ⟨?_, ?_, ?_, ?_, rfl⟩
  · rw [parse_eq_filters]
  · rw [parse_eq_filters]
  · rw [parse_eq_filters]
  · intro hm
    rw [parse_eq_filters, hm]
    rfl

/-- Witness for C8: an output whose lines all fail to match parses to
the empty summary. -/
theorem C8_witness : parse_ansible_output noMatchText = ⟨[], [], []⟩ :=
  (C8_classification_precedence noMatchText).2.2.2.1 rfl

/-- C9 fails as stated on the code: when the same host identifier occurs
on two matching lines with different statuses, it appears in two of the
three lists, so the lists are not disjoint sets.  On `dupText` the host
`h (Unknown)` is listed both unreachable and successful. -/
theorem C9_counterexample :
    hUnknown ∈ (parse_ansible_output dupText).unreachable
    ∧ hUnknown ∈ (parse_ansible_output dupText).success := by
  have hd : parse_ansible_output dupText = ⟨[hUnknown], [], [hUnknown]⟩ := rfl
  rw [hd]
  exact ⟨List.mem_singleton.mpr rfl, List.mem_singleton.mpr rfl⟩

/-- C9 (amended): each matching line is classified into exactly one
list, so whenever no two matching lines of the input produce the same
host identifier, the three lists of the summary are pairwise disjoint
and contain no duplicates (their concatenation has no duplicate). -/
theorem C9_disjoint_classification (output : String)
    (h : ((matchedLines output).map host_info_of).Nodup) :
    ((parse_ansible_output output).unreachable ++ (parse_ansible_output output).failed ++
      (parse_ansible_output output).success).Nodup := by
  rw [parse_eq_filters output]
  have hp2 := (filters_perm (matchedLines output)).map host_info_of
  have hn := (hp2.nodup_iff).mpr h
  simpa [List.map_append, List.append_assoc] using hn

/-- Witness for C9 (amended): the single-line output has duplicate-free
classification lists. -/
theorem C9_witness :
    ((parse_ansible_output precLine).unreachable ++ (parse_ansible_output precLine).failed ++
      (parse_ansible_output precLine).success).Nodup :=
  C9_disjoint_classification precLine (by
    have hm : (matchedLines precLine).map host_info_of = [snu30Info] := rfl
    rw [hm]
    exact List.nodup_singleton snu30Info)

end App
